import Mathlib

/-!
Shallow embedding of the TimeTrackerLogger activity logger (src/main.py).

The embedded parts are the ones the claims are about: the window observer
(get_active_window_info), the rotation path resolver (current_log_path),
the log file manager (safe_open_log, header writing), the emission policy
and logging loop (logger_thread, modelled as a per-tick transition
logger_tick plus a loop step logger_step and a run over tick lists), and
the interval controller (load_settings, save_settings, set_interval).

Modelling conventions:
- Wall-clock epoch seconds (Python float time.time()) are modelled as Int;
  the only arithmetic the code does on them is subtraction and comparison
  with the integer constant MAX_REPEAT_SEC.
- Local time (Python time.localtime / time.strftime) is a record of the
  formatted date string and hour/minute/second numbers.
- The filesystem of log files is a function from file name to its row
  list; a missing file is the empty list, matching append-mode creation.
  The constant directory prefix (base_dir/Logs) is identical for every
  path in a run and is omitted from the modelled path.
- Python None is modelled as Option.none; the pair returned by
  get_active_window_info is a pair of Option String, exactly as the code
  may return (None, None).
- Exceptions are modelled as explicit outcome data: the OS query outcome
  (OsQuery), the open(2) attempt outcome (OpenOutcome), and an exception
  escaping a tick body (TickOutcome.exc).
-/

namespace TimeTracker

/-- MAX_REPEAT_SEC = 300: longest interval before an unchanged window is
re-recorded (the keepalive threshold). -/
def MAX_REPEAT_SEC : Int := 300

/-- DEFAULT_INTERVAL = 3: fallback polling interval in seconds. -/
def DEFAULT_INTERVAL : Int := 3

/-! ## Window observer: get_active_window_info -/

/-- Outcome of one OS query for the focused window, covering every path
through the try block of get_active_window_info: success, a null foreground
window handle, and the exceptions psutil or win32 can raise. -/
inductive OsQuery
  | ok (exe title : String)
  | noWindow
  | procVanished
  | accessDenied
  | otherError
deriving Repr, DecidableEq

/-- get_active_window_info: returns (exe, title) of the focused window;
on a null handle it falls through, and every exception is swallowed by
the bare except, so all failure paths return (None, None). -/
def get_active_window_info : OsQuery → Option String × Option String
  | .ok exe title => (some exe, some title)
  | .noWindow => (none, none)
  | .procVanished => (none, none)
  | .accessDenied => (none, none)
  | .otherError => (none, none)

/-- Python x or "" on an optional string: None becomes the empty string.
(On some s the Python expression also yields "" when s is empty, which is
the same string, so the match below is extensionally the code.) -/
def pyOr : Option String → String
  | none => ""
  | some s => s

/-! ## Rotation path resolver: current_log_path -/

/-- A local wall-clock instant, as the code reads it: the formatted date
string together with hour, minute and second numbers. -/
structure LocalTime where
  date : String
  hour : Nat
  min : Nat
  sec : Nat
deriving Repr, DecidableEq

/-- Two-digit zero padding, as in the 02d format of the bucket hour. -/
def pad2 (n : Nat) : String :=
  if n < 10 then "0" ++ toString n else toString n

/-- current_log_path: hour_block = (hour // 6) * 6 and the file name is
activity_YYYY-MM-DD_BBh.csv. The constant Logs directory prefix is the
same for every path in a run and is omitted. -/
def current_log_path (lt : LocalTime) : String :=
  "activity_" ++ lt.date ++ "_" ++ pad2 ((lt.hour / 6) * 6) ++ "h.csv"

/-- time.strftime of the record timestamp. -/
def fmtTime (lt : LocalTime) : String :=
  lt.date ++ " " ++ pad2 lt.hour ++ ":" ++ pad2 lt.min ++ ":" ++ pad2 lt.sec

/-! ## Log file manager: safe_open_log -/

/-- Outcome of one open() attempt on the log file: success, a
PermissionError (the transient failure the code retries), or any other
exception (which the code does not catch and which propagates). -/
inductive OpenOutcome
  | success
  | permError
  | otherError
deriving Repr, DecidableEq

/-- Result of safe_open_log. permFail models the final
raise PermissionError (the LogAccessError of the spec); openedAt k means
attempt k (0-based) returned the handle; otherFail is a non-PermissionError
exception escaping from open(). -/
inductive OpenResult
  | openedAt (attempt : Nat)
  | permFail
  | otherFail
deriving Repr, DecidableEq

/-- The for-loop body of safe_open_log: i is the index of the next
attempt, fuel the remaining iterations of range(3), sleeps the number of
one-second time.sleep(1) calls done so far. -/
def safe_open_loop (f : Nat → OpenOutcome) : Nat → Nat → Nat → OpenResult × Nat
  | _, 0, sleeps => (.permFail, sleeps)
  | i, fuel + 1, sleeps =>
    match f i with
    | .success => (.openedAt i, sleeps)
    | .permError => safe_open_loop f (i + 1) fuel (sleeps + 1)
    | .otherError => (.otherFail, sleeps)

/-- safe_open_log: up to 3 open attempts, sleeping 1 second after each
PermissionError, then raising. f gives the outcome of each attempt.
Returns the result together with the number of one-second sleeps. -/
def safe_open_log (f : Nat → OpenOutcome) : OpenResult × Nat :=
  safe_open_loop f 0 3 0

/-! ## Log records and the filesystem of log files -/

/-- One CSV data row: [SESSION_ID, seq_id, timestamp, exe or "", title or ""]. -/
structure LogRecord where
  session : String
  id : Nat
  timestamp : String
  exe : String
  title : String
deriving Repr, DecidableEq

/-- A row of a log file: the header row or a data record. -/
inductive Row
  | header
  | data (r : LogRecord)
deriving Repr, DecidableEq

/-- The sequence ids of the data records of a file, in file order. -/
def recIds : List Row → List Nat
  | [] => []
  | .header :: rs => recIds rs
  | .data r :: rs => r.id :: recIds rs

/-! ## Logging loop state: the locals of logger_thread -/

/-- The mutable locals of logger_thread, plus the observable world they
act on: fs is the content of every log file, handle the path the open
file object is for (none before the first rotation), closedLog the paths
of handles closed so far, warnings the number of WARN lines printed by
the except branch. -/
structure LogState where
  last_exe : Option String
  last_title : Option String
  last_write_time : Int
  seq_id : Nat
  current_path : Option String
  handle : Option String
  fs : String → List Row
  closedLog : List String
  warnings : Nat

/-- The locals as initialised at the top of logger_thread, over a fresh
Logs directory. -/
def initLogState : LogState where
  last_exe := none
  last_title := none
  last_write_time := 0
  seq_id := 0
  current_path := none
  handle := none
  fs := fun _ => []
  closedLog := []
  warnings := 0

/-- The input of one successful tick of the loop body: the local time
read for the path and the timestamp, the epoch time now, the OS query
outcome, and the interval value read under the lock. -/
structure Tick where
  lt : LocalTime
  now : Int
  sample : OsQuery
  interval : Int
deriving Repr, DecidableEq

/-- The rotation branch of logger_thread (log_path differed from
current_path): close the prior handle if any, open the new file in append
mode (creating it empty if missing), write the header row iff the file
size is zero, reset seq_id to 0, and clear the dedup state. -/
def rotate (st : LogState) (log_path : String) : LogState :=
  let closedLog := st.closedLog ++ st.handle.toList
  let fs :=
    if st.fs log_path = [] then
      fun q => if q = log_path then st.fs q ++ [Row.header] else st.fs q
    else st.fs
  { st with
    handle := some log_path
    closedLog := closedLog
    fs := fs
    seq_id := 0
    current_path := some log_path
    last_exe := none
    last_title := none
    last_write_time := 0 }

/-- The rotation check at the top of the try body: if log_path differs
from current_path, run the rotation branch, else leave the state alone. -/
def rotCheck (st : LogState) (log_path : String) : LogState :=
  if st.current_path ≠ some log_path then rotate st log_path else st

/-- The emission check of the try body: if the sampled (exe, title)
differs componentwise from the stored pair, or more than MAX_REPEAT_SEC
seconds passed since the last write, increment seq_id, append the row
[SESSION_ID, seq_id, timestamp, exe or "", title or ""] to the open file
(whose path is log_path, the current path after the rotation check),
flush, and update the dedup state. Otherwise do nothing. -/
def emitCheck (session : String) (log_path : String) (st : LogState) (tk : Tick) : LogState :=
  if (get_active_window_info tk.sample).1 ≠ st.last_exe ∨
      (get_active_window_info tk.sample).2 ≠ st.last_title ∨
      tk.now - st.last_write_time > MAX_REPEAT_SEC then
    { st with
      seq_id := st.seq_id + 1
      fs := fun q =>
        if q = log_path then
          st.fs q ++ [Row.data
            { session := session, id := st.seq_id + 1, timestamp := fmtTime tk.lt,
              exe := pyOr (get_active_window_info tk.sample).1,
              title := pyOr (get_active_window_info tk.sample).2 }]
        else st.fs q
      last_exe := (get_active_window_info tk.sample).1
      last_title := (get_active_window_info tk.sample).2
      last_write_time := tk.now }
  else st

/-- One pass of the try body of logger_thread with no exception: rotation
check, sample, read interval, conditional emission with flush, and the
sleep duration used afterwards. Returns the new state and the slept
seconds. -/
def logger_tick (session : String) (st0 : LogState) (tk : Tick) : LogState × Int :=
  (emitCheck session (current_log_path tk.lt) (rotCheck st0 (current_log_path tk.lt)) tk,
    tk.interval)

/-- What one iteration of the while loop consumed: a tick that ran to
completion, or an exception escaping the try body, leaving the locals at
some intermediate state midSt. -/
inductive TickOutcome
  | ok (tk : Tick)
  | exc (midSt : LogState)

/-- Result of one while-loop iteration boundary: continue with the new
state after sleeping sleepSec seconds, or leave the loop with the final
state (only after the stop flag was observed). -/
inductive StepResult
  | cont (st : LogState) (sleepSec : Int)
  | exit (st : LogState)

/-- The close of the current file after the while loop. -/
def close_file (st : LogState) : LogState :=
  match st.handle with
  | some p => { st with handle := none, closedLog := st.closedLog ++ [p] }
  | none => st

/-- One iteration of logger_thread observed at the loop head: if the stop
flag is set the loop exits and the open handle is closed; otherwise a
normal tick runs, or an exception is caught by the except branch, which
prints a warning and sleeps 1 second. -/
def logger_step (session : String) (stop_flag : Bool) (st : LogState)
    (o : TickOutcome) : StepResult :=
  if stop_flag then
    .exit (close_file st)
  else
    match o with
    | .ok tk =>
      let res := logger_tick session st tk
      .cont res.1 res.2
    | .exc midSt => .cont { midSt with warnings := midSt.warnings + 1 } 1

/-- Running the loop body over a list of exception-free ticks. -/
def logger_run (session : String) (st : LogState) : List Tick → LogState
  | [] => st
  | tk :: tks => logger_run session (logger_tick session st tk).1 tks

/-! ## Interval controller: load_settings, save_settings, set_interval -/

/-- The settings dictionary; the only key the program uses is interval,
held as some v when present (the code never stores a non-number there). -/
structure AppSettings where
  interval : Option Int
deriving Repr, DecidableEq

/-- The settings.json file on disk: absent, present but unparsable, or a
parsed dictionary. -/
inductive DiskFile
  | absent
  | corrupt
  | valid (d : AppSettings)
deriving Repr, DecidableEq

/-- load_settings: a readable file is parsed; a missing file or a parse
exception falls back to the default dictionary with interval 3. -/
def load_settings : DiskFile → AppSettings
  | .valid d => d
  | .corrupt => { interval := some DEFAULT_INTERVAL }
  | .absent => { interval := some DEFAULT_INTERVAL }

/-- The module-level interval state: interval_value, the settings
dictionary, and the settings.json file. -/
structure ControllerState where
  interval_value : Int
  settings : AppSettings
  disk : DiskFile
deriving Repr, DecidableEq

/-- Module initialisation: settings = load_settings();
interval_value = settings.get("interval", DEFAULT_INTERVAL). Loading does
not write the file. -/
def startup (f : DiskFile) : ControllerState where
  interval_value := (load_settings f).interval.getD DEFAULT_INTERVAL
  settings := load_settings f
  disk := f

/-- The read of interval_value done under interval_lock each tick. -/
def get_interval (st : ControllerState) : Int :=
  st.interval_value

/-- set_interval(value): under interval_lock, assign interval_value,
update the dictionary, and save_settings rewrites the whole file. -/
def set_interval (value : Int) (st : ControllerState) : ControllerState :=
  let settings' := { st.settings with interval := some value }
  { st with
    interval_value := value
    settings := settings'
    disk := DiskFile.valid settings' }

/-- The whole program state relevant to the claims: the controller
globals and the logger thread locals. -/
structure AppState where
  ctrl : ControllerState
  log : LogState

/-- One loop tick of the full program: the logger thread reads
interval_value under the lock and runs its body; it never writes the
controller state or the settings file. -/
def app_tick (session : String) (a : AppState) (lt : LocalTime) (now : Int)
    (q : OsQuery) : AppState :=
  { a with
    log := (logger_tick session a.log
      { lt := lt, now := now, sample := q, interval := a.ctrl.interval_value }).1 }

/-! ## Trace-level notions for the per-file sequence id claim -/

/-- A tick trace is admissible when every rotation targets a file name
not used before in the run. Within one run this always holds for real
wall-clock inputs, because date and 6-hour bucket never move back; the
check is written against the current path (first argument) and the list
of file names used so far. -/
def pathsOK : Option String → List String → List Tick → Bool
  | _, _, [] => true
  | cur, used, tk :: tks =>
    if some (current_log_path tk.lt) = cur then
      pathsOK cur used tks
    else
      !(used.contains (current_log_path tk.lt)) &&
        pathsOK (some (current_log_path tk.lt)) (current_log_path tk.lt :: used) tks

/-- Invariant tying the loop locals to the filesystem: files never used
are empty, every file holds data records with ids 1, 2, ..., n in order,
and the file under current_path holds exactly ids 1, ..., seq_id. -/
def SeqInv (st : LogState) (used : List String) : Prop :=
  (∀ p, p ∉ used → st.fs p = []) ∧
  (∀ p, ∃ n, recIds (st.fs p) = List.range' 1 n) ∧
  (∀ p₀, st.current_path = some p₀ →
    p₀ ∈ used ∧ recIds (st.fs p₀) = List.range' 1 st.seq_id)

/-! ## Concrete inputs used by the closed instance theorems -/

/-- A local time in the 00h bucket of 2025-01-02. -/
def exLT : LocalTime := { date := "2025-01-02", hour := 3, min := 15, sec := 7 }

/-- A later local time in the same bucket. -/
def exLT2 : LocalTime := { date := "2025-01-02", hour := 4, min := 0, sec := 0 }

/-- A local time in the next (06h) bucket of the same day. -/
def exLT3 : LocalTime := { date := "2025-01-02", hour := 7, min := 0, sec := 0 }

/-- The file name of the 00h bucket of 2025-01-02. -/
def exPath : String := current_log_path exLT

/-- A tick whose elapsed time since exSt.last_write_time is 400 seconds,
with an unchanged observation: the keepalive case. -/
def exTickKeep : Tick :=
  { lt := exLT2, now := 1700000400, sample := OsQuery.ok "chrome.exe" "Docs", interval := 3 }

/-- A tick in the 06h bucket: a rotation relative to exSt. -/
def exTickRot : Tick :=
  { lt := exLT3, now := 1700000500, sample := OsQuery.ok "chrome.exe" "Docs", interval := 3 }

/-- A tick with a failed sample 100 seconds after exSt wrote. -/
def exTickFail : Tick :=
  { lt := exLT2, now := 1700000100, sample := OsQuery.noWindow, interval := 3 }

/-- A normal tick from the initial state. -/
def exTick : Tick :=
  { lt := exLT, now := 1700000000, sample := OsQuery.ok "chrome.exe" "Docs", interval := 3 }

/-- The loop state after a first rotation into exPath and one record,
written at epoch second 1700000000 with the window (chrome.exe, Docs). -/
def exSt : LogState :=
  { initLogState with
    last_exe := some "chrome.exe"
    last_title := some "Docs"
    last_write_time := 1700000000
    seq_id := 1
    current_path := some exPath
    handle := some exPath
    fs := fun q =>
      if q = exPath then
        [Row.header,
         Row.data
             { session := "ab12cd34", id := 1, timestamp := fmtTime exLT,
                    exe := "chrome.exe", title := "Docs" }]
      else [] }

/-- A state like exSt whose stored observation is the pair of empty
strings (a window reporting empty name and title). -/
def exStEmptyObs : LogState :=
  { exSt with last_exe := some "", last_title := some "" }

/-- A three-tick trace: first sight, a title change in the same bucket,
then a tick in the next bucket. -/
def exTicks : List Tick :=
  [ exTick,
    { lt := exLT2, now := 1700000010, sample := OsQuery.ok "chrome.exe" "Mail", interval := 3 },
    { lt := exLT3, now := 1700000020, sample := OsQuery.noWindow, interval := 3 } ]

/-! ## Helper lemmas -/

theorem recIds_append (a b : List Row) : recIds (a ++ b) = recIds a ++ recIds b := by
  induction a with
  | nil => rfl
  | cons r rs ih => cases r <;> simp [recIds, ih]

theorem rotCheck_same (st : LogState) (lp : String) (h : st.current_path = some lp) :
    rotCheck st lp = st := by
  unfold rotCheck
  rw [if_neg]
  simp [h]

theorem rotCheck_rot (st : LogState) (lp : String) (h : st.current_path ≠ some lp) :
    rotCheck st lp = rotate st lp := by
  unfold rotCheck
  rw [if_pos h]

theorem emitCheck_skip (session lp : String) (st : LogState) (tk : Tick)
    (h : ¬ ((get_active_window_info tk.sample).1 ≠ st.last_exe ∨
        (get_active_window_info tk.sample).2 ≠ st.last_title ∨
        tk.now - st.last_write_time > MAX_REPEAT_SEC)) :
    emitCheck session lp st tk = st := by
  unfold emitCheck
  rw [if_neg h]

theorem emitCheck_emit (session lp : String) (st : LogState) (tk : Tick)
    (h : (get_active_window_info tk.sample).1 ≠ st.last_exe ∨
        (get_active_window_info tk.sample).2 ≠ st.last_title ∨
        tk.now - st.last_write_time > MAX_REPEAT_SEC) :
    emitCheck session lp st tk =
      { st with
        seq_id := st.seq_id + 1
        fs := fun q =>
          if q = lp then
            st.fs q ++ [Row.data
              { session := session, id := st.seq_id + 1, timestamp := fmtTime tk.lt,
                exe := pyOr (get_active_window_info tk.sample).1,
                title := pyOr (get_active_window_info tk.sample).2 }]
          else st.fs q
        last_exe := (get_active_window_info tk.sample).1
        last_title := (get_active_window_info tk.sample).2
        last_write_time := tk.now } := by
  unfold emitCheck
  rw [if_pos h]

theorem emitCheck_current_path (session lp : String) (st : LogState) (tk : Tick) :
    (emitCheck session lp st tk).current_path = st.current_path := by
  unfold emitCheck
  split <;> rfl

theorem tick_fst (session : String) (st : LogState) (tk : Tick) :
    (logger_tick session st tk).1 =
      emitCheck session (current_log_path tk.lt) (rotCheck st (current_log_path tk.lt)) tk :=
  rfl

theorem tick_current_path (session : String) (st : LogState) (tk : Tick) :
    (logger_tick session st tk).1.current_path = some (current_log_path tk.lt) := by
  rw [tick_fst, emitCheck_current_path]
  by_cases h : st.current_path = some (current_log_path tk.lt)
  · rw [rotCheck_same _ _ h, h]
  · rw [rotCheck_rot _ _ h]
    rfl

/-! ## Claim C5 -/

/-- Claim C5 as stated is false on the code: on a failed sample,
get_active_window_info returns the pair (None, None), so the absent
window is represented by null values, not by empty strings. -/
theorem c5_counterexample :
    get_active_window_info OsQuery.noWindow = (none, none) ∧
    (get_active_window_info OsQuery.noWindow).1 ≠ some "" ∧
    (get_active_window_info OsQuery.noWindow).2 ≠ some "" := by
  decide

/-- Claim C5 amended: for every possible internal failure (no focused
window, process vanished, access denied, any other exception) the
observer never raises (it is a total function of the query outcome) and
returns the null observation (None, None); the null fields become empty
strings only when a record is serialized, via x or "". -/
theorem c5_sample_total_null (q : OsQuery) :
    (get_active_window_info q = (none, none) ∨
      ∃ e t, q = OsQuery.ok e t ∧ get_active_window_info q = (some e, some t)) ∧
    pyOr none = "" := by
  refine ⟨?_, rfl⟩
  cases q with
  | ok e t => exact Or.inr ⟨e, t, rfl, rfl⟩
  | noWindow => exact Or.inl rfl
  | procVanished => exact Or.inl rfl
  | accessDenied => exact Or.inl rfl
  | otherError => exact Or.inl rfl

/-! ## Claim C6 -/

/-- Claim C6: safe_open_log makes at most 3 open attempts; after each
PermissionError it sleeps 1 second; if all 3 attempts fail transiently it
raises the PermissionError that plays the role of the LogAccessError of
the spec (after 3 one-second sleeps), and the first successful attempt j
returns the handle with no further attempts (j sleeps happened, one per
prior failure). -/
theorem c6_open_retries (f : Nat → OpenOutcome) :
    ((∀ i, i < 3 → f i = OpenOutcome.permError) →
      safe_open_log f = (OpenResult.permFail, 3)) ∧
    (∀ j, j < 3 → (∀ i, i < j → f i = OpenOutcome.permError) →
      f j = OpenOutcome.success →
      safe_open_log f = (OpenResult.openedAt j, j)) := by
  constructor
  · intro h
    have h0 := h 0 (by omega)
    have h1 := h 1 (by omega)
    have h2 := h 2 (by omega)
    simp [safe_open_log, safe_open_loop, h0, h1, h2]
  · intro j hj hprev hsucc
    interval_cases j
    · simp [safe_open_log, safe_open_loop, hsucc]
    · have h0 := hprev 0 (by omega)
      simp [safe_open_log, safe_open_loop, h0, hsucc]
    · have h0 := hprev 0 (by omega)
      have h1 := hprev 1 (by omega)
      simp [safe_open_log, safe_open_loop, h0, h1, hsucc]

/-- Closed instance of c6_open_retries: all attempts locked gives the
raise after 3 attempts and 3 sleeps; a first-retry success returns the
handle on attempt 1 after a single sleep. -/
theorem c6_open_retries_inst :
    safe_open_log (fun _ => OpenOutcome.permError) = (OpenResult.permFail, 3) ∧
    safe_open_log (fun i => if i < 1 then OpenOutcome.permError else OpenOutcome.success) =
      (OpenResult.openedAt 1, 1) := by
  constructor
  · exact (c6_open_retries (fun _ => OpenOutcome.permError)).1 (fun i _ => rfl)
  · refine (c6_open_retries _).2 1 (by omega) ?_ (by decide)
    intro i hi
    interval_cases i
    decide

/-! ## Claim C7 -/

/-- Claim C7: set_interval(5) followed by the locked read returns 5; the
settings file is rewritten to the dictionary with interval 5; and after
any set_interval(v) the on-disk dictionary holds exactly the in-memory
interval value, so the two never diverge. -/
theorem c7_set_then_get (st : ControllerState) (v : Int) :
    get_interval (set_interval 5 st) = 5 ∧
    (set_interval 5 st).disk = DiskFile.valid { interval := some 5 } ∧
    (set_interval v st).disk =
      DiskFile.valid { interval := some (get_interval (set_interval v st)) } :=
  ⟨rfl, rfl, rfl⟩

/-! ## Claim C9 -/

/-- Claim C9 as stated is false on the code: set_interval performs no
validation at all, so after set_interval(0) the value the logging loop
reads is 0, which is not positive. -/
theorem c9_counterexample :
    get_interval (set_interval 0 (startup DiskFile.absent)) = 0 ∧
    ¬ (0 < get_interval (set_interval 0 (startup DiskFile.absent))) := by
  decide

/-- Claim C9 amended: the controller enforces nothing, not even
positivity; the interval read by the loop is positive after startup from
a missing or corrupt settings file (default 3) and after any
set_interval(v) with positive v, but a non-positive argument or stored
value is accepted unchanged. -/
theorem c9_positive_only_from_callers (st : ControllerState) (v : Int) (hv : 0 < v) :
    0 < get_interval (set_interval v st) ∧
    0 < get_interval (startup DiskFile.absent) ∧
    0 < get_interval (startup DiskFile.corrupt) :=
  ⟨hv, by decide, by decide⟩

/-- Closed instance of c9_positive_only_from_callers at v = 4. -/
theorem c9_positive_only_from_callers_inst :
    (0 : Int) < 4 ∧
    (0 < get_interval (set_interval 4 (startup DiskFile.absent)) ∧
      0 < get_interval (startup DiskFile.absent) ∧
      0 < get_interval (startup DiskFile.corrupt)) :=
  ⟨by decide, c9_positive_only_from_callers (startup DiskFile.absent) 4 (by decide)⟩

/-! ## Claim C4 -/

/-- Claim C4 as stated is false on the code: on a fresh run the interval
does fall back to 3, but the logging loop never writes settings.json, so
after the first tick the persisted settings store still does not exist;
it is written only by set_interval. -/
theorem c4_counterexample :
    get_interval (startup DiskFile.absent) = 3 ∧
    (app_tick "ab12cd34" { ctrl := startup DiskFile.absent, log := initLogState }
        exLT 1700000000 (OsQuery.ok "chrome.exe" "Docs")).ctrl.disk = DiskFile.absent ∧
    DiskFile.absent ≠ DiskFile.valid { interval := some 3 } :=
  ⟨rfl, rfl, by decide⟩

/-- Claim C4 amended: on a fresh run with a missing or corrupt settings
file the interval falls back to the default 3 and the in-memory
dictionary holds interval 3, but a tick of the logging loop leaves the
whole controller state, the persisted store included, exactly as it was:
the settings file is written only on an interval change. -/
theorem c4_default_no_persist (f : DiskFile)
    (hf : f = DiskFile.absent ∨ f = DiskFile.corrupt)
    (session : String) (lt : LocalTime) (now : Int) (q : OsQuery) :
    get_interval (startup f) = 3 ∧
    (startup f).settings = { interval := some 3 } ∧
    (app_tick session { ctrl := startup f, log := initLogState } lt now q).ctrl = startup f := by
  rcases hf with h | h <;> subst h <;> exact ⟨rfl, rfl, rfl⟩

/-- Closed instance of c4_default_no_persist with an absent file. -/
theorem c4_default_no_persist_inst :
    (DiskFile.absent = DiskFile.absent ∨ DiskFile.absent = DiskFile.corrupt) ∧
    (get_interval (startup DiskFile.absent) = 3 ∧
      (startup DiskFile.absent).settings = { interval := some 3 } ∧
      (app_tick "ab12cd34" { ctrl := startup DiskFile.absent, log := initLogState }
          exLT 1700000000 (OsQuery.ok "chrome.exe" "Docs")).ctrl = startup DiskFile.absent) :=
  ⟨Or.inl rfl, c4_default_no_persist DiskFile.absent (Or.inl rfl) "ab12cd34" exLT 1700000000
      (OsQuery.ok "chrome.exe" "Docs")⟩

/-! ## Claim C8 -/

/-- Claim C8: the loop leaves its while only when the stop flag is set;
with the flag set it closes the open handle (if any) before the thread
exits, recording the closed path; an exception escaping the tick body is
caught at the loop boundary, counted as a printed warning, and followed
by a 1-second pause with the loop continuing; a normal tick continues
with its own sleep. -/
theorem c8_loop_boundary (session : String) (st : LogState) (o : TickOutcome) :
    (∀ stop : Bool, ∀ stExit : LogState,
      logger_step session stop st o = StepResult.exit stExit → stop = true) ∧
    (logger_step session true st o = StepResult.exit (close_file st) ∧
      (close_file st).handle = none ∧
      (∀ p, st.handle = some p → (close_file st).closedLog = st.closedLog ++ [p])) ∧
    (∀ midSt, o = TickOutcome.exc midSt →
      logger_step session false st o =
        StepResult.cont { midSt with warnings := midSt.warnings + 1 } 1) ∧
    (∀ tk, o = TickOutcome.ok tk →
      logger_step session false st o =
        StepResult.cont (logger_tick session st tk).1 (logger_tick session st tk).2) := by
  refine ⟨?_, ⟨rfl, ?_, ?_⟩, ?_, ?_⟩
  · intro stop stExit h
    cases stop
    · cases o <;> simp [logger_step] at h
    · rfl
  · cases hh : st.handle <;> simp [close_file, hh]
  · intro p hp
    simp [close_file, hp]
  · intro midSt ho
    subst ho
    rfl
  · intro tk ho
    subst ho
    rfl

/-- Closed instance of c8_loop_boundary: exiting requires the stop flag,
the exit closes the open handle and records its path, an exception
continues with a 1-second pause, and a normal tick continues. -/
theorem c8_loop_boundary_inst :
    true = true ∧
    (close_file exSt).handle = none ∧
    (close_file exSt).closedLog = exSt.closedLog ++ [exPath] ∧
    logger_step "ab12cd34" false exSt (TickOutcome.exc exSt) =
      StepResult.cont { exSt with warnings := exSt.warnings + 1 } 1 ∧
    logger_step "ab12cd34" false exSt (TickOutcome.ok exTickKeep) =
      StepResult.cont (logger_tick "ab12cd34" exSt exTickKeep).1
        (logger_tick "ab12cd34" exSt exTickKeep).2 :=
  ⟨(c8_loop_boundary "ab12cd34" exSt (TickOutcome.ok exTickKeep)).1 true (close_file exSt)
      (c8_loop_boundary "ab12cd34" exSt (TickOutcome.ok exTickKeep)).2.1.1,
   (c8_loop_boundary "ab12cd34" exSt (TickOutcome.ok exTickKeep)).2.1.2.1,
   (c8_loop_boundary "ab12cd34" exSt (TickOutcome.ok exTickKeep)).2.1.2.2 exPath rfl,
   (c8_loop_boundary "ab12cd34" exSt (TickOutcome.exc exSt)).2.2.1 exSt rfl,
   (c8_loop_boundary "ab12cd34" exSt (TickOutcome.ok exTickKeep)).2.2.2 exTickKeep rfl⟩

/-! ## Claim C1 -/

/-- Claim C1: on a tick with no rotation (the resolved path equals the
current path), a record is appended to the file iff the sampled pair
differs from the stored pair or strictly more than MAX_REPEAT_SEC = 300
seconds passed since the last write; with an unchanged pair and at most
300 elapsed seconds the whole state is untouched, so nothing is
appended anywhere; and with more than 300 elapsed seconds exactly one
record is appended even if the pair is unchanged. -/
theorem c1_emission_rule (session : String) (st : LogState) (tk : Tick)
    (hpath : st.current_path = some (current_log_path tk.lt)) :
    ((∃ r : LogRecord, (logger_tick session st tk).1.fs (current_log_path tk.lt) =
        st.fs (current_log_path tk.lt) ++ [Row.data r]) ↔
      (get_active_window_info tk.sample ≠ (st.last_exe, st.last_title) ∨
        tk.now - st.last_write_time > MAX_REPEAT_SEC)) ∧
    (get_active_window_info tk.sample = (st.last_exe, st.last_title) ∧
        tk.now - st.last_write_time ≤ MAX_REPEAT_SEC →
      (logger_tick session st tk).1 = st) ∧
    (tk.now - st.last_write_time > MAX_REPEAT_SEC →
      (logger_tick session st tk).1.fs (current_log_path tk.lt) =
        st.fs (current_log_path tk.lt) ++
          [Row.data
              { session := session, id := st.seq_id + 1, timestamp := fmtTime tk.lt,
                exe := pyOr (get_active_window_info tk.sample).1,
                title := pyOr (get_active_window_info tk.sample).2 }]) := by
  have hR : rotCheck st (current_log_path tk.lt) = st := rotCheck_same _ _ hpath
  have hpair : (get_active_window_info tk.sample ≠ (st.last_exe, st.last_title)) ↔
      ((get_active_window_info tk.sample).1 ≠ st.last_exe ∨
        (get_active_window_info tk.sample).2 ≠ st.last_title) := by
    rw [ne_eq, Prod.ext_iff]
    tauto
  by_cases hc : (get_active_window_info tk.sample).1 ≠ st.last_exe ∨
      (get_active_window_info tk.sample).2 ≠ st.last_title ∨
      tk.now - st.last_write_time > MAX_REPEAT_SEC
  · have hemit := emitCheck_emit session (current_log_path tk.lt) st tk hc
    refine ⟨⟨fun _ => ?_, fun _ => ?_⟩, fun h => ?_, fun _ => ?_⟩
    · rcases hc with h | h | h
      · exact Or.inl (hpair.mpr (Or.inl h))
      · exact Or.inl (hpair.mpr (Or.inr h))
      · exact Or.inr h
    · refine Exists.intro
        { session := session, id := st.seq_id + 1, timestamp := fmtTime tk.lt,
          exe := pyOr (get_active_window_info tk.sample).1,
          title := pyOr (get_active_window_info tk.sample).2 } ?_
      rw [tick_fst, hR, hemit]
      simp
    · exfalso
      rcases hc with hco | hco | hco
      · exact hco (congrArg Prod.fst h.1)
      · exact hco (congrArg Prod.snd h.1)
      · exact absurd hco (not_lt.mpr h.2)
    · rw [tick_fst, hR, hemit]
      simp
  · have hskip := emitCheck_skip session (current_log_path tk.lt) st tk hc
    push_neg at hc
    obtain ⟨h1, h2, h3⟩ := hc
    refine ⟨⟨fun h => ?_, fun h => ?_⟩, fun _ => ?_, fun h => ?_⟩
    · obtain ⟨r, hr⟩ := h
      rw [tick_fst, hR, hskip] at hr
      exact absurd hr (by simp)
    · exfalso
      rcases h with hne | hgt
      · rcases hpair.mp hne with hco | hco
        · exact hco h1
        · exact hco h2
      · exact absurd hgt (not_lt.mpr h3)
    · rw [tick_fst, hR, hskip]
    · exact absurd h (not_lt.mpr h3)

/-- Closed instance of c1_emission_rule: a keepalive tick 400 seconds
after the last write, with an unchanged observation, appends exactly the
record with the next sequence id. -/
theorem c1_emission_rule_inst :
    exSt.current_path = some (current_log_path exTickKeep.lt) ∧
    exTickKeep.now - exSt.last_write_time > MAX_REPEAT_SEC ∧
    (logger_tick "ab12cd34" exSt exTickKeep).1.fs (current_log_path exTickKeep.lt) =
      exSt.fs (current_log_path exTickKeep.lt) ++
        [Row.data
            { session := "ab12cd34", id := exSt.seq_id + 1, timestamp := fmtTime exTickKeep.lt,
              exe := pyOr (get_active_window_info exTickKeep.sample).1,
              title := pyOr (get_active_window_info exTickKeep.sample).2 }] :=
  ⟨rfl, by decide, (c1_emission_rule "ab12cd34" exSt exTickKeep rfl).2.2 (by decide)⟩

/-! ## Claim C3 -/

/-- Claim C3: on a tick whose resolved path differs from the current
path, the loop closes the prior handle if any (its path is appended to
the closed list), opens the new file, writes the header exactly when the
file is empty, and the reset of the dedup state makes the emission
condition true (the reset last_write_time 0 is more than MAX_REPEAT_SEC
before any realistic epoch instant, hypothesis hnow), so the tick emits
exactly one record with sequence id 1 and leaves seq_id = 1. -/
theorem c3_rotation (session : String) (st : LogState) (tk : Tick)
    (hrot : st.current_path ≠ some (current_log_path tk.lt))
    (hnow : MAX_REPEAT_SEC < tk.now) :
    (logger_tick session st tk).1.current_path = some (current_log_path tk.lt) ∧
    (logger_tick session st tk).1.handle = some (current_log_path tk.lt) ∧
    (logger_tick session st tk).1.closedLog = st.closedLog ++ st.handle.toList ∧
    (logger_tick session st tk).1.seq_id = 1 ∧
    (st.fs (current_log_path tk.lt) = [] →
      (logger_tick session st tk).1.fs (current_log_path tk.lt) =
        [Row.header, Row.data
            { session := session, id := 1, timestamp := fmtTime tk.lt,
              exe := pyOr (get_active_window_info tk.sample).1,
              title := pyOr (get_active_window_info tk.sample).2 }]) ∧
    (st.fs (current_log_path tk.lt) ≠ [] →
      (logger_tick session st tk).1.fs (current_log_path tk.lt) =
        st.fs (current_log_path tk.lt) ++
          [Row.data
              { session := session, id := 1, timestamp := fmtTime tk.lt,
                exe := pyOr (get_active_window_info tk.sample).1,
                title := pyOr (get_active_window_info tk.sample).2 }]) := by
  have hR : rotCheck st (current_log_path tk.lt) = rotate st (current_log_path tk.lt) :=
    rotCheck_rot _ _ hrot
  have hcond : (get_active_window_info tk.sample).1 ≠
        (rotate st (current_log_path tk.lt)).last_exe ∨
      (get_active_window_info tk.sample).2 ≠
        (rotate st (current_log_path tk.lt)).last_title ∨
      tk.now - (rotate st (current_log_path tk.lt)).last_write_time > MAX_REPEAT_SEC := by
    refine Or.inr (Or.inr ?_)
    show tk.now - (0 : Int) > MAX_REPEAT_SEC
    omega
  have hemit := emitCheck_emit session (current_log_path tk.lt)
    (rotate st (current_log_path tk.lt)) tk hcond
  refine ⟨?_, ?_, ?_, ?_, fun hempty => ?_, fun hne => ?_⟩
  · rw [tick_fst, hR, hemit]
    simp [rotate]
  · rw [tick_fst, hR, hemit]
    simp [rotate]
  · rw [tick_fst, hR, hemit]
    simp [rotate]
  · rw [tick_fst, hR, hemit]
    simp [rotate]
  · rw [tick_fst, hR, hemit]
    simp [rotate, hempty]
  · rw [tick_fst, hR, hemit]
    simp [rotate, hne]

/-- Closed instance of c3_rotation: crossing from the 00h bucket to the
06h bucket opens the new empty file, writes the header once, and emits
the first record with sequence id 1 although the window is unchanged. -/
theorem c3_rotation_inst :
    exSt.current_path ≠ some (current_log_path exTickRot.lt) ∧
    MAX_REPEAT_SEC < exTickRot.now ∧
    (logger_tick "ab12cd34" exSt exTickRot).1.seq_id = 1 ∧
    (logger_tick "ab12cd34" exSt exTickRot).1.fs (current_log_path exTickRot.lt) =
      [Row.header, Row.data
          { session := "ab12cd34", id := 1, timestamp := fmtTime exTickRot.lt,
            exe := pyOr (get_active_window_info exTickRot.sample).1,
            title := pyOr (get_active_window_info exTickRot.sample).2 }] :=
  ⟨by decide, by decide,
   (c3_rotation "ab12cd34" exSt exTickRot (by decide) (by decide)).2.2.2.1,
   (c3_rotation "ab12cd34" exSt exTickRot (by decide) (by decide)).2.2.2.2.1 (by decide)⟩

/-! ## Claim C10 -/

/-- Claim C10: a null field of a failed sample is serialized as the
empty string, and the serializations of the null pair and of the pair of
empty strings coincide; yet the dedup state stores the raw sampled
values, so with a stored observation of two empty strings and a failed
sample, the tick emits a record (with empty string fields) even though
at most MAX_REPEAT_SEC seconds elapsed, and then stores the nulls. -/
theorem c10_null_vs_empty (session : String) (st : LogState) (tk : Tick)
    (hpath : st.current_path = some (current_log_path tk.lt))
    (hexe : st.last_exe = some "") (htitle : st.last_title = some "")
    (hfail : get_active_window_info tk.sample = (none, none))
    (htime : tk.now - st.last_write_time ≤ MAX_REPEAT_SEC) :
    pyOr none = "" ∧ pyOr (some "") = pyOr none ∧
    (logger_tick session st tk).1.fs (current_log_path tk.lt) =
      st.fs (current_log_path tk.lt) ++
        [Row.data
            { session := session, id := st.seq_id + 1, timestamp := fmtTime tk.lt,
              exe := "", title := "" }] ∧
    (logger_tick session st tk).1.last_exe = none ∧
    (logger_tick session st tk).1.last_title = none := by
  have hfst : (get_active_window_info tk.sample).1 = none := by rw [hfail]
  have hsnd : (get_active_window_info tk.sample).2 = none := by rw [hfail]
  have hcond : (get_active_window_info tk.sample).1 ≠ st.last_exe ∨
      (get_active_window_info tk.sample).2 ≠ st.last_title ∨
      tk.now - st.last_write_time > MAX_REPEAT_SEC := by
    refine Or.inl ?_
    rw [hfst, hexe]
    simp
  have hR : rotCheck st (current_log_path tk.lt) = st := rotCheck_same _ _ hpath
  have hemit := emitCheck_emit session (current_log_path tk.lt) st tk hcond
  refine ⟨rfl, rfl, ?_, ?_, ?_⟩
  · rw [tick_fst, hR, hemit]
    simp [hfst, hsnd, pyOr]
  · rw [tick_fst, hR, hemit]
    simp [hfst]
  · rw [tick_fst, hR, hemit]
    simp [hsnd]

/-- Closed instance of c10_null_vs_empty: from a stored observation of
two empty strings, a failed sample 100 seconds later still produces a
record, whose serialized fields are empty strings. -/
theorem c10_null_vs_empty_inst :
    exTickFail.now - exStEmptyObs.last_write_time ≤ MAX_REPEAT_SEC ∧
    (pyOr none = "" ∧ pyOr (some "") = pyOr none ∧
      (logger_tick "ab12cd34" exStEmptyObs exTickFail).1.fs (current_log_path exTickFail.lt) =
        exStEmptyObs.fs (current_log_path exTickFail.lt) ++
          [Row.data
              { session := "ab12cd34", id := exStEmptyObs.seq_id + 1,
                timestamp := fmtTime exTickFail.lt, exe := "", title := "" }] ∧
      (logger_tick "ab12cd34" exStEmptyObs exTickFail).1.last_exe = none ∧
      (logger_tick "ab12cd34" exStEmptyObs exTickFail).1.last_title = none) :=
  ⟨by decide,
   c10_null_vs_empty "ab12cd34" exStEmptyObs exTickFail rfl rfl rfl rfl (by decide)⟩

/-! ## Claim C2 -/

theorem range'_one_concat (n : Nat) :
    List.range' 1 n ++ [n + 1] = List.range' 1 (n + 1) := by
  rw [List.range'_concat]
  simp [Nat.add_comm]

theorem rotate_fs (st : LogState) (lp : String) (hempty : st.fs lp = []) :
    (rotate st lp).fs = fun q => if q = lp then st.fs q ++ [Row.header] else st.fs q := by
  unfold rotate
  simp [hempty]

theorem seqInv_emitCheck (session lp : String) (st : LogState) (tk : Tick) (used : List String)
    (hcur : st.current_path = some lp) (hinv : SeqInv st used) :
    SeqInv (emitCheck session lp st tk) used := by
  obtain ⟨h1, h2, h3⟩ := hinv
  obtain ⟨hmem, hids⟩ := h3 lp hcur
  by_cases hc : (get_active_window_info tk.sample).1 ≠ st.last_exe ∨
      (get_active_window_info tk.sample).2 ≠ st.last_title ∨
      tk.now - st.last_write_time > MAX_REPEAT_SEC
  · rw [emitCheck_emit session lp st tk hc]
    refine ⟨?_, ?_, ?_⟩
    · intro p hp
      have hne : p ≠ lp := fun he => hp (he ▸ hmem)
      simp [hne, h1 p hp]
    · intro p
      by_cases hple : p = lp
      · subst hple
        refine ⟨st.seq_id + 1, ?_⟩
        simp [recIds_append, hids, recIds, range'_one_concat]
      · refine ⟨(h2 p).choose, ?_⟩
        simpa [hple] using (h2 p).choose_spec
    · intro p₀ hp₀
      have hsome : some lp = some p₀ := by
        rw [← hcur]
        exact hp₀
      obtain rfl : lp = p₀ := Option.some.inj hsome
      refine ⟨hmem, ?_⟩
      simp [recIds_append, hids, recIds, range'_one_concat]
  · rw [emitCheck_skip session lp st tk hc]
    exact ⟨h1, h2, fun p₀ h => ⟨(h3 p₀ h).1, (h3 p₀ h).2⟩⟩

theorem seqInv_rotate (st : LogState) (lp : String) (used : List String)
    (hnew : lp ∉ used) (hinv : SeqInv st used) :
    SeqInv (rotate st lp) (lp :: used) := by
  obtain ⟨h1, h2, h3⟩ := hinv
  have hempty : st.fs lp = [] := h1 lp hnew
  have hfs := rotate_fs st lp hempty
  refine ⟨?_, ?_, ?_⟩
  · intro p hp
    have hne : p ≠ lp := fun he => hp (he ▸ List.mem_cons_self lp used)
    have hpu : p ∉ used := fun hm => hp (List.mem_cons_of_mem lp hm)
    rw [hfs]
    simp [hne, h1 p hpu]
  · intro p
    by_cases hple : p = lp
    · subst hple
      refine ⟨0, ?_⟩
      rw [hfs]
      simp [hempty, recIds]
    · refine ⟨(h2 p).choose, ?_⟩
      rw [hfs]
      simpa [hple] using (h2 p).choose_spec
  · intro p₀ hp₀
    have hsome : some lp = some p₀ := hp₀
    obtain rfl : lp = p₀ := Option.some.inj hsome
    refine ⟨List.mem_cons_self lp used, ?_⟩
    have hseq : (rotate st lp).seq_id = 0 := rfl
    rw [hfs, hseq]
    simp [hempty, recIds]

theorem seqInv_tick_same (session : String) (st : LogState) (tk : Tick) (used : List String)
    (hcur : st.current_path = some (current_log_path tk.lt)) (hinv : SeqInv st used) :
    SeqInv (logger_tick session st tk).1 used := by
  rw [tick_fst, rotCheck_same _ _ hcur]
  exact seqInv_emitCheck session _ st tk used hcur hinv

theorem seqInv_tick_rot (session : String) (st : LogState) (tk : Tick) (used : List String)
    (hcur : st.current_path ≠ some (current_log_path tk.lt))
    (hnew : current_log_path tk.lt ∉ used) (hinv : SeqInv st used) :
    SeqInv (logger_tick session st tk).1 (current_log_path tk.lt :: used) := by
  rw [tick_fst, rotCheck_rot _ _ hcur]
  exact seqInv_emitCheck session _ (rotate st (current_log_path tk.lt)) tk _
    rfl (seqInv_rotate st _ used hnew hinv)

theorem seqInv_run (session : String) :
    ∀ (tks : List Tick) (st : LogState) (used : List String),
      SeqInv st used → pathsOK st.current_path used tks = true →
      ∃ used', SeqInv (logger_run session st tks) used' := by
  intro tks
  induction tks with
  | nil =>
    intro st used hinv _
    exact ⟨used, hinv⟩
  | cons tk tks ih =>
    intro st used hinv hOK
    unfold pathsOK at hOK
    by_cases hc : some (current_log_path tk.lt) = st.current_path
    · rw [if_pos hc] at hOK
      have hst1 := seqInv_tick_same session st tk used hc.symm hinv
      show ∃ used', SeqInv (logger_run session (logger_tick session st tk).1 tks) used'
      refine ih (logger_tick session st tk).1 used hst1 ?_
      rw [tick_current_path, hc]
      exact hOK
    · rw [if_neg hc] at hOK
      obtain ⟨hnotin, hOK'⟩ := (Bool.and_eq_true _ _).mp hOK
      have hnew : current_log_path tk.lt ∉ used := by simpa using hnotin
      have hst1 := seqInv_tick_rot session st tk used (fun h => hc h.symm) hnew hinv
      show ∃ used', SeqInv (logger_run session (logger_tick session st tk).1 tks) used'
      refine ih (logger_tick session st tk).1 (current_log_path tk.lt :: used) hst1 ?_
      rw [tick_current_path]
      exact hOK'

/-- Claim C2: over any admissible run from a fresh start (every rotation
targets a file name not used before, which real wall-clock input always
satisfies within one run), the sequence ids of the data records of every
file form exactly 1, 2, ..., n in order, with no gaps and no repeats:
each emission writes id seq_id + 1 and seq_id is reset, to 0, only by
the rotation branch when the destination path changes. -/
theorem c2_per_file_ids (session : String) (tks : List Tick)
    (hOK : pathsOK none [] tks = true) :
    ∀ p, ∃ n, recIds ((logger_run session initLogState tks).fs p) = List.range' 1 n := by
  have hinv : SeqInv initLogState [] :=
    ⟨fun _ _ => rfl, fun _ => ⟨0, rfl⟩, fun _ h => Option.noConfusion h⟩
  obtain ⟨used', hinv'⟩ := seqInv_run session tks initLogState [] hinv hOK
  exact fun p => hinv'.2.1 p

/-- Closed instance of c2_per_file_ids: the three-tick example trace
crossing one bucket boundary leaves the first file with ids 1, ..., n. -/
theorem c2_per_file_ids_inst :
    pathsOK none [] exTicks = true ∧
    (∃ n, recIds ((logger_run "ab12cd34" initLogState exTicks).fs
        (current_log_path exLT)) = List.range' 1 n) :=
  ⟨by decide, c2_per_file_ids "ab12cd34" exTicks (by decide) (current_log_path exLT)⟩

end TimeTracker
